import Mathlib

/-!
Shallow embedding of `ractor`'s
`src/concurrency/wasm_browser_primitives/web_global_scope.rs`.

The module is FFI glue over a JavaScript host: host-shape detection
(`get_web_global_scope`), a tagged scope value (`WebGlobalScope`), a
process-wide singleton (`web_global_scope`, an `OnceLock`) and three facade
functions (`set_timeout`, `set_interval`, `clear_interval`).

The JavaScript host is modelled as an oracle structure `JsEnv` giving the
outcome of every host primitive the Rust code invokes (`js_sys::eval`,
`Reflect::get`, `Reflect::has`, `dyn_into` casts, `Function::call*`, and the
four `web_sys` native timer methods).  The Rust control flow is translated
literally over these oracles.  Each dispatch-level function additionally
returns the list of host timer/function invocations it performed (a
`HostCall` trace), so that "invokes the native operation with exactly these
arguments" is a statable property.  Rust panics (`expect` / `unwrap`) are
modelled by the `PanicOr.panicked` constructor carrying the panic message.
-/

set_option maxHeartbeats 1000000

/-- A single-quote character, used to spell the JavaScript probe strings. -/
def singleQuote : String := String.singleton (Char.ofNat 39)

/-- Model of a JavaScript value as observed through wasm-bindgen's `JsValue`. -/
inductive JsValue where
  | undefined
  | null
  | boolean (b : Bool)
  | number (x : Int)
  | string (s : String)
  | object (id : Nat)
  | function (id : Nat)
  deriving DecidableEq, Repr

/-- `JsValue::as_bool`: `some b` exactly when the value is a boolean. -/
def JsValue.as_bool : JsValue → Option Bool
  | .boolean b => some b
  | _ => none

/-- `JsValue::as_f64`: `some x` exactly when the value is a number.
Numbers are modelled as integers (every identifier the module handles is an
integral f64). -/
def JsValue.as_f64 : JsValue → Option Int
  | .number x => some x
  | _ => none

/-- `JsValue::is_object`: true for non-null objects (functions excluded,
as `typeof f` is "function"). -/
def JsValue.is_object : JsValue → Bool
  | .object _ => true
  | _ => false

/-- Success of `JsValue::dyn_into::<js_sys::Function>`: true exactly for
function values. -/
def JsValue.is_function : JsValue → Bool
  | .function _ => true
  | _ => false

/-- A property key passed to `Reflect::get`: either a string name or the
well-known symbol `Symbol.toPrimitive`. -/
inductive PropKey where
  | str (s : String)
  | symbolToPrimitive
  deriving DecidableEq, Repr

/-- One host invocation performed by the dispatch layer: a `js_sys::Function`
call (NodeJs variant), or one of the four `web_sys` native timer methods. -/
inductive HostCall where
  | jsFunctionCall (f this : JsValue) (args : List JsValue)
  | windowClearInterval (window : JsValue) (handle : Int)
  | workerClearInterval (scope : JsValue) (handle : Int)
  | windowSetTimeout (window : JsValue) (callback : JsValue) (timeout : Int)
  | windowSetInterval (window : JsValue) (callback : JsValue) (timeout : Int)
  | workerSetTimeout (scope : JsValue) (callback : JsValue) (timeout : Int)
  | workerSetInterval (scope : JsValue) (callback : JsValue) (timeout : Int)
  deriving DecidableEq, Repr

/-- Outcome of a Rust computation that may panic (`expect` / `unwrap`):
either a normal value or a panic with its message. -/
inductive PanicOr (α : Type) where
  | panicked (msg : String)
  | ok (value : α)
  deriving DecidableEq, Repr

/-- The JavaScript host, as an oracle for every primitive the Rust module
invokes.  `global` is the value of `js_sys::global()`; `eval` gives the
outcome of `js_sys::eval` on a source string; `reflectGet` / `reflectHas`
model `js_sys::Reflect`; `isWorkerGlobalScope` / `isWindow` give the success
of the corresponding `dyn_into` casts; `callFunction f this args` models
`Function::call0/call1/call2`; the last four fields model the `web_sys`
native timer methods on `Window` / `WorkerGlobalScope`. -/
structure JsEnv where
  global : JsValue
  eval : String → Except JsValue JsValue
  reflectGet : JsValue → PropKey → Except JsValue JsValue
  reflectHas : JsValue → String → Except JsValue Bool
  isWorkerGlobalScope : JsValue → Bool
  isWindow : JsValue → Bool
  callFunction : JsValue → JsValue → List JsValue → Except JsValue JsValue
  windowSetTimeout : JsValue → JsValue → Int → Except JsValue Int
  windowSetInterval : JsValue → JsValue → Int → Except JsValue Int
  workerSetTimeout : JsValue → JsValue → Int → Except JsValue Int
  workerSetInterval : JsValue → JsValue → Int → Except JsValue Int

/-- The probe string evaluated first by `get_web_global_scope`. -/
def workerProbeSrc : String :=
  "typeof WorkerGlobalScope !== " ++ singleQuote ++ "undefined" ++ singleQuote
    ++ " && self instanceof WorkerGlobalScope"

/-- The probe string evaluated second by `get_web_global_scope`. -/
def windowProbeSrc : String :=
  "typeof Window !== " ++ singleQuote ++ "undefined" ++ singleQuote
    ++ " && self instanceof Window"

/-- The tagged scope enum `WebGlobalScope` of the Rust module.  The `Window`
and `WorkerGlobalScope` variants hold the (cast) global object; the `NodeJs`
variant holds the three independently resolved global functions. -/
inductive WebGlobalScope where
  | NodeJs (clear_interval set_interval set_timeout : JsValue)
  | Window (window : JsValue)
  | WorkerGlobalScope (scope : JsValue)
  deriving DecidableEq, Repr

/-- Rust `f64 as i32` applied to an integral f64: truncating cast, saturating
at the i32 bounds. -/
def f64_as_i32 (x : Int) : Int :=
  if x < -(2 ^ 31) then -(2 ^ 31)
  else if 2 ^ 31 - 1 < x then 2 ^ 31 - 1
  else x

/-- `get_js_function_from_object`: `Reflect::get(object, name)` followed by
`dyn_into::<Function>`, the cast failure replaced by an error string naming
the function. -/
def get_js_function_from_object (env : JsEnv) (object : JsValue) (name : String) :
    Except JsValue JsValue :=
  (env.reflectGet object (PropKey.str name)).bind fun value =>
    if value.is_function then Except.ok value
    else Except.error (JsValue.string ("failed to get js function `" ++ name ++ "`"))

/-- `is_node_js_env`: `Reflect::get(global, "process")`, filtered to objects,
then `Reflect::get(process, "versions")`, filtered to objects, then
`Reflect::has(versions, "node")`, any failure collapsing to `false`. -/
def is_node_js_env (env : JsEnv) : Bool :=
  match env.reflectGet env.global (PropKey.str "process") with
  | Except.error _ => false
  | Except.ok process =>
    if process.is_object then
      match env.reflectGet process (PropKey.str "versions") with
      | Except.error _ => false
      | Except.ok versions =>
        if versions.is_object then
          match env.reflectHas versions "node" with
          | Except.error _ => false
          | Except.ok b => b
        else false
    else false

/-- `get_web_global_scope`: evaluate the worker probe (propagating an eval
error via `?`, a non-boolean result collapsing to `false`); on success cast
the global object to `WorkerGlobalScope` (cast failure is an error carrying
the value itself, via `?`).  Otherwise evaluate the window probe the same
way.  Otherwise, if `is_node_js_env`, resolve the three named global
functions in order `clearInterval`, `setInterval`, `setTimeout`, each via
`?`.  Otherwise fail with the fixed error string. -/
def get_web_global_scope (env : JsEnv) : Except JsValue WebGlobalScope :=
  let global := env.global
  match env.eval workerProbeSrc with
  | Except.error e => Except.error e
  | Except.ok v =>
    if (v.as_bool).getD false then
      if env.isWorkerGlobalScope global then
        Except.ok (WebGlobalScope.WorkerGlobalScope global)
      else Except.error global
    else
      match env.eval windowProbeSrc with
      | Except.error e => Except.error e
      | Except.ok w =>
        if (w.as_bool).getD false then
          if env.isWindow global then Except.ok (WebGlobalScope.Window global)
          else Except.error global
        else if is_node_js_env env then
          (get_js_function_from_object env global "clearInterval").bind fun ci =>
            (get_js_function_from_object env global "setInterval").bind fun si =>
              (get_js_function_from_object env global "setTimeout").map fun st =>
                WebGlobalScope.NodeJs ci si st
        else
          Except.error (JsValue.string "failed to get global scope in web environment")

/-- `get_node_js_timeout_id`: `Reflect::get(timeout, Symbol.toPrimitive)`,
`dyn_into::<Function>` (failure carrying the value), `call0` with the timeout
object as context, `ok()`, `as_f64()`, `as i32`, and `expect` on `None`.
Also returns the function invocation performed, if any. -/
def get_node_js_timeout_id (env : JsEnv) (timeout : JsValue) :
    PanicOr Int × List HostCall :=
  let fetched : Except JsValue JsValue :=
    (env.reflectGet timeout PropKey.symbolToPrimitive).bind fun primitive_fn_obj =>
      if primitive_fn_obj.is_function then Except.ok primitive_fn_obj
      else Except.error primitive_fn_obj
  match fetched with
  | Except.error _ =>
    (PanicOr.panicked "failed to get timeout id from NodeJS timeout object", [])
  | Except.ok primitive_fn =>
    let calls := [HostCall.jsFunctionCall primitive_fn timeout []]
    match env.callFunction primitive_fn timeout [] with
    | Except.error _ =>
      (PanicOr.panicked "failed to get timeout id from NodeJS timeout object", calls)
    | Except.ok primitive_value =>
      match primitive_value.as_f64 with
      | some primitive_f64 => (PanicOr.ok (f64_as_i32 primitive_f64), calls)
      | none =>
        (PanicOr.panicked "failed to get timeout id from NodeJS timeout object", calls)

/-- `WebGlobalScope::clear_interval`.  NodeJs: `call1` the resolved
`clearInterval` with `js_sys::global()` as context and the id as an f64,
`expect`ing success.  Window / WorkerGlobalScope: the native
`clear_interval_with_handle`, which returns nothing. -/
def WebGlobalScope.clear_interval (env : JsEnv) :
    WebGlobalScope → Int → PanicOr Unit × List HostCall
  | WebGlobalScope.NodeJs ci _ _, interval_id =>
    let arg := JsValue.number interval_id
    let calls := [HostCall.jsFunctionCall ci env.global [arg]]
    match env.callFunction ci env.global [arg] with
    | Except.ok _ => (PanicOr.ok (), calls)
    | Except.error _ =>
      (PanicOr.panicked "failed to call global js function `clearInterval`", calls)
  | WebGlobalScope.Window window, interval_id =>
    (PanicOr.ok (), [HostCall.windowClearInterval window interval_id])
  | WebGlobalScope.WorkerGlobalScope scope, interval_id =>
    (PanicOr.ok (), [HostCall.workerClearInterval scope interval_id])

/-- `WebGlobalScope::set_interval`.  NodeJs: `call2` the resolved
`setInterval` with `undefined` context, the callback and the delay as an
f64; a call error is returned as `Err`, a returned Timeout object is
normalized by `get_node_js_timeout_id` (which may panic).  Window /
WorkerGlobalScope: the native
`set_interval_with_callback_and_timeout_and_arguments_0`. -/
def WebGlobalScope.set_interval (env : JsEnv) :
    WebGlobalScope → JsValue → Int → PanicOr (Except JsValue Int) × List HostCall
  | WebGlobalScope.NodeJs _ si _, callback, delay_milliseconds =>
    let args := [callback, JsValue.number delay_milliseconds]
    let schedCall := HostCall.jsFunctionCall si JsValue.undefined args
    match env.callFunction si JsValue.undefined args with
    | Except.error e => (PanicOr.ok (Except.error e), [schedCall])
    | Except.ok timeout =>
      match get_node_js_timeout_id env timeout with
      | (PanicOr.panicked m, normCalls) => (PanicOr.panicked m, schedCall :: normCalls)
      | (PanicOr.ok id, normCalls) =>
        (PanicOr.ok (Except.ok id), schedCall :: normCalls)
  | WebGlobalScope.Window window, callback, delay_milliseconds =>
    (PanicOr.ok (env.windowSetInterval window callback delay_milliseconds),
      [HostCall.windowSetInterval window callback delay_milliseconds])
  | WebGlobalScope.WorkerGlobalScope scope, callback, delay_milliseconds =>
    (PanicOr.ok (env.workerSetInterval scope callback delay_milliseconds),
      [HostCall.workerSetInterval scope callback delay_milliseconds])

/-- `WebGlobalScope::set_timeout`: identical shape to `set_interval`, using
the resolved `setTimeout` / the native
`set_timeout_with_callback_and_timeout_and_arguments_0`. -/
def WebGlobalScope.set_timeout (env : JsEnv) :
    WebGlobalScope → JsValue → Int → PanicOr (Except JsValue Int) × List HostCall
  | WebGlobalScope.NodeJs _ _ st, callback, delay_milliseconds =>
    let args := [callback, JsValue.number delay_milliseconds]
    let schedCall := HostCall.jsFunctionCall st JsValue.undefined args
    match env.callFunction st JsValue.undefined args with
    | Except.error e => (PanicOr.ok (Except.error e), [schedCall])
    | Except.ok timeout =>
      match get_node_js_timeout_id env timeout with
      | (PanicOr.panicked m, normCalls) => (PanicOr.panicked m, schedCall :: normCalls)
      | (PanicOr.ok id, normCalls) =>
        (PanicOr.ok (Except.ok id), schedCall :: normCalls)
  | WebGlobalScope.Window window, callback, delay_milliseconds =>
    (PanicOr.ok (env.windowSetTimeout window callback delay_milliseconds),
      [HostCall.windowSetTimeout window callback delay_milliseconds])
  | WebGlobalScope.WorkerGlobalScope scope, callback, delay_milliseconds =>
    (PanicOr.ok (env.workerSetTimeout scope callback delay_milliseconds),
      [HostCall.workerSetTimeout scope callback delay_milliseconds])

/-- `web_global_scope`: the `OnceLock` singleton.  The lock contents are made
explicit as an `Option WebGlobalScope` state; `get_or_init` returns the
stored value if present, otherwise runs detection and `unwrap`s (panicking on
a detection error).  Returns the observed scope and the updated state. -/
def web_global_scope (env : JsEnv) (instance_state : Option WebGlobalScope) :
    PanicOr (WebGlobalScope × Option WebGlobalScope) :=
  match instance_state with
  | some scope => PanicOr.ok (scope, some scope)
  | none =>
    match get_web_global_scope env with
    | Except.ok scope => PanicOr.ok (scope, some scope)
    | Except.error _ =>
      PanicOr.panicked "called `Result::unwrap()` on an `Err` value"

/-- Facade `clear_interval`: singleton lookup, then dispatch. -/
def clear_interval (env : JsEnv) (instance_state : Option WebGlobalScope)
    (interval_id : Int) : PanicOr (Unit × Option WebGlobalScope) × List HostCall :=
  match web_global_scope env instance_state with
  | PanicOr.panicked m => (PanicOr.panicked m, [])
  | PanicOr.ok (scope, state) =>
    match WebGlobalScope.clear_interval env scope interval_id with
    | (PanicOr.panicked m, calls) => (PanicOr.panicked m, calls)
    | (PanicOr.ok _, calls) => (PanicOr.ok ((), state), calls)

/-- Facade `set_interval`: singleton lookup, dispatch, then `expect` — a
dispatch `Err` becomes a panic with the fixed message. -/
def set_interval (env : JsEnv) (instance_state : Option WebGlobalScope)
    (callback : JsValue) (delay_milliseconds : Int) :
    PanicOr (Int × Option WebGlobalScope) × List HostCall :=
  match web_global_scope env instance_state with
  | PanicOr.panicked m => (PanicOr.panicked m, [])
  | PanicOr.ok (scope, state) =>
    match WebGlobalScope.set_interval env scope callback delay_milliseconds with
    | (PanicOr.panicked m, calls) => (PanicOr.panicked m, calls)
    | (PanicOr.ok (Except.ok id), calls) => (PanicOr.ok (id, state), calls)
    | (PanicOr.ok (Except.error _), calls) =>
      (PanicOr.panicked "failed to call setInterval in web environment", calls)

/-- Facade `set_timeout`: singleton lookup, dispatch, then `expect`. -/
def set_timeout (env : JsEnv) (instance_state : Option WebGlobalScope)
    (callback : JsValue) (delay_milliseconds : Int) :
    PanicOr (Int × Option WebGlobalScope) × List HostCall :=
  match web_global_scope env instance_state with
  | PanicOr.panicked m => (PanicOr.panicked m, [])
  | PanicOr.ok (scope, state) =>
    match WebGlobalScope.set_timeout env scope callback delay_milliseconds with
    | (PanicOr.panicked m, calls) => (PanicOr.panicked m, calls)
    | (PanicOr.ok (Except.ok id), calls) => (PanicOr.ok (id, state), calls)
    | (PanicOr.ok (Except.error _), calls) =>
      (PanicOr.panicked "failed to call setTimeout in web environment", calls)

/-- A sequence of `n` successive first-use calls to the singleton accessor
(the linearization of `n` concurrent callers hitting the `OnceLock`): the
list of per-caller observations and the final lock state. -/
def singleton_calls (env : JsEnv) :
    Nat → Option WebGlobalScope → List (PanicOr WebGlobalScope) × Option WebGlobalScope
  | 0, state => ([], state)
  | n + 1, state =>
    match web_global_scope env state with
    | PanicOr.ok (scope, state1) =>
      let rest := singleton_calls env n state1
      (PanicOr.ok scope :: rest.1, rest.2)
    | PanicOr.panicked m =>
      let rest := singleton_calls env n state
      (PanicOr.panicked m :: rest.1, rest.2)

/-! ### Concrete environments used by witnesses and counterexamples -/

/-- A host where both probes evaluate to `false` and no NodeJs marker is
present: detection fails with the `NoKnownHost` error string. -/
def baseEnv : JsEnv where
  global := JsValue.object 0
  eval := fun _ => Except.ok (JsValue.boolean false)
  reflectGet := fun _ _ => Except.ok JsValue.undefined
  reflectHas := fun _ _ => Except.ok false
  isWorkerGlobalScope := fun _ => false
  isWindow := fun _ => false
  callFunction := fun _ _ _ => Except.ok JsValue.undefined
  windowSetTimeout := fun _ _ _ => Except.ok 7
  windowSetInterval := fun _ _ _ => Except.ok 8
  workerSetTimeout := fun _ _ _ => Except.ok 9
  workerSetInterval := fun _ _ _ => Except.ok 10

/-- A worker host: the worker probe evaluates to `true` and the global object
casts to `WorkerGlobalScope`. -/
def envWorkerTrue : JsEnv :=
  { baseEnv with
    eval := fun s =>
      if s = workerProbeSrc then Except.ok (JsValue.boolean true)
      else Except.ok (JsValue.boolean false)
    isWorkerGlobalScope := fun _ => true }

/-- A pathological host where the worker probe evaluates to `true` but the
global object does not cast to `WorkerGlobalScope`. -/
def envWorkerCastFail : JsEnv :=
  { baseEnv with
    eval := fun s =>
      if s = workerProbeSrc then Except.ok (JsValue.boolean true)
      else Except.ok (JsValue.boolean false) }

/-! ### C1 — detection priority order -/

/-- C1 (amended): detection commits to the highest-priority matching shape and
never falls through.  (1) If the worker probe evaluates to `true`, the result
is the `WorkerGlobalScope` variant when the global object casts, and an error
otherwise — never a later shape.  (2) A `Window` result implies the worker
probe evaluated non-`true`, the window probe evaluated `true` and the cast
succeeded.  (3) A `NodeJs` result implies both probes evaluated non-`true`
and the NodeJs marker was present.  (4) If both probes evaluate non-`true`
and the marker is absent, detection fails with the `NoKnownHost` error
string. -/
theorem C1_detection_priority_order (env : JsEnv) :
    (∀ v, env.eval workerProbeSrc = Except.ok v → (v.as_bool).getD false = true →
      get_web_global_scope env =
        (if env.isWorkerGlobalScope env.global then
          Except.ok (WebGlobalScope.WorkerGlobalScope env.global)
        else Except.error env.global)) ∧
    (∀ w, get_web_global_scope env = Except.ok (WebGlobalScope.Window w) →
      w = env.global ∧ env.isWindow env.global = true ∧
      (∃ v, env.eval workerProbeSrc = Except.ok v ∧ (v.as_bool).getD false = false) ∧
      (∃ u, env.eval windowProbeSrc = Except.ok u ∧ (u.as_bool).getD false = true)) ∧
    (∀ ci si st, get_web_global_scope env = Except.ok (WebGlobalScope.NodeJs ci si st) →
      is_node_js_env env = true ∧
      (∃ v, env.eval workerProbeSrc = Except.ok v ∧ (v.as_bool).getD false = false) ∧
      (∃ u, env.eval windowProbeSrc = Except.ok u ∧ (u.as_bool).getD false = false)) ∧
    (∀ v u, env.eval workerProbeSrc = Except.ok v → (v.as_bool).getD false = false →
      env.eval windowProbeSrc = Except.ok u → (u.as_bool).getD false = false →
      is_node_js_env env = false →
      get_web_global_scope env =
        Except.error (JsValue.string "failed to get global scope in web environment")) := by
  refine ⟨?_, ?_, ?_, ?_⟩
  · intro v hv hb
    unfold get_web_global_scope
    rw [hv]
    simp [hb]
  · intro w h
    unfold get_web_global_scope at h
    cases hw : env.eval workerProbeSrc with
    | error e => simp [hw] at h
    | ok v =>
      simp only [hw] at h
      by_cases hb : (v.as_bool).getD false = true
      · simp only [hb, if_true] at h
        by_cases hc : env.isWorkerGlobalScope env.global = true <;> simp [hc] at h
      · rw [Bool.not_eq_true] at hb
        simp only [hb, Bool.false_eq_true, if_false] at h
        cases hn : env.eval windowProbeSrc with
        | error e => simp [hn] at h
        | ok u =>
          simp only [hn] at h
          by_cases hub : (u.as_bool).getD false = true
          · simp only [hub, if_true] at h
            by_cases hwin : env.isWindow env.global = true
            · simp only [hwin, if_true, Except.ok.injEq,
                WebGlobalScope.Window.injEq] at h
              exact ⟨h.symm, hwin, ⟨v, rfl, hb⟩, ⟨u, rfl, hub⟩⟩
            · simp [hwin] at h
          · rw [Bool.not_eq_true] at hub
            simp only [hub, Bool.false_eq_true, if_false] at h
            by_cases hnode : is_node_js_env env = true
            · simp only [hnode, if_true] at h
              cases hci : get_js_function_from_object env env.global "clearInterval" with
              | error e => simp [hci, Except.bind] at h
              | ok ci =>
                cases hsi : get_js_function_from_object env env.global "setInterval" with
                | error e => simp [hci, hsi, Except.bind] at h
                | ok si =>
                  cases hst : get_js_function_from_object env env.global "setTimeout" with
                  | error e => simp [hci, hsi, hst, Except.bind, Except.map] at h
                  | ok st => simp [hci, hsi, hst, Except.bind, Except.map] at h
            · simp [hnode] at h
  · intro ci si st h
    unfold get_web_global_scope at h
    cases hw : env.eval workerProbeSrc with
    | error e => simp [hw] at h
    | ok v =>
      simp only [hw] at h
      by_cases hb : (v.as_bool).getD false = true
      · simp only [hb, if_true] at h
        by_cases hc : env.isWorkerGlobalScope env.global = true <;> simp [hc] at h
      · rw [Bool.not_eq_true] at hb
        simp only [hb, Bool.false_eq_true, if_false] at h
        cases hn : env.eval windowProbeSrc with
        | error e => simp [hn] at h
        | ok u =>
          simp only [hn] at h
          by_cases hub : (u.as_bool).getD false = true
          · simp only [hub, if_true] at h
            by_cases hwin : env.isWindow env.global = true <;> simp [hwin] at h
          · rw [Bool.not_eq_true] at hub
            simp only [hub, Bool.false_eq_true, if_false] at h
            by_cases hnode : is_node_js_env env = true
            · exact ⟨hnode, ⟨v, rfl, hb⟩, ⟨u, rfl, hub⟩⟩
            · simp [hnode] at h
  · intro v u hv hb hu hub hnode
    unfold get_web_global_scope
    rw [hv]
    simp only [hb, Bool.false_eq_true, if_false]
    rw [hu]
    simp [hub, hnode]

/-- C1 counterexample to the claim as stated: an environment where the worker
probe evaluates to `true`, yet detection does not select the
`WorkerGlobalScope` variant — it fails (the global object does not cast), so
"selects the WorkerGlobalScope variant whenever the worker probe succeeds"
and "fails only when all three fail" are both false of the code. -/
theorem C1_counterexample :
    envWorkerCastFail.eval workerProbeSrc = Except.ok (JsValue.boolean true) ∧
    get_web_global_scope envWorkerCastFail = Except.error (JsValue.object 0) := by
  constructor
  · simp [envWorkerCastFail, baseEnv]
  · rfl

/-- C1 witness: the amended theorem applied to a concrete worker host. -/
theorem C1_witness :
    get_web_global_scope envWorkerTrue =
      Except.ok (WebGlobalScope.WorkerGlobalScope (JsValue.object 0)) := by
  have h := (C1_detection_priority_order envWorkerTrue).1 (JsValue.boolean true)
    (by simp [envWorkerTrue, baseEnv]) (by simp [JsValue.as_bool])
  simpa [envWorkerTrue, baseEnv] using h

/-! ### C10 — asymmetric probe robustness -/

/-- A host where evaluating the worker probe itself throws. -/
def envEvalThrow : JsEnv :=
  { baseEnv with
    eval := fun s =>
      if s = workerProbeSrc then Except.error (JsValue.string "eval threw")
      else Except.ok (JsValue.boolean true) }

/-- C10: if evaluating the worker or window probe throws, detection returns
that error immediately (for every environment, hence independently of any
later probe); if a probe evaluates to a non-boolean value it is treated as
`false` and detection continues to the next probe — reaching the later error,
the NodeJs marker test, or a successful window binding. -/
theorem C10_probe_robustness_asymmetry (env : JsEnv) :
    (∀ e, env.eval workerProbeSrc = Except.error e →
      get_web_global_scope env = Except.error e) ∧
    (∀ v e, env.eval workerProbeSrc = Except.ok v → v.as_bool = none →
      env.eval windowProbeSrc = Except.error e →
      get_web_global_scope env = Except.error e) ∧
    (∀ v u, env.eval workerProbeSrc = Except.ok v → v.as_bool = none →
      env.eval windowProbeSrc = Except.ok u → u.as_bool = none →
      is_node_js_env env = false →
      get_web_global_scope env =
        Except.error (JsValue.string "failed to get global scope in web environment")) ∧
    (∀ v, env.eval workerProbeSrc = Except.ok v → v.as_bool = none →
      env.eval windowProbeSrc = Except.ok (JsValue.boolean true) →
      env.isWindow env.global = true →
      get_web_global_scope env = Except.ok (WebGlobalScope.Window env.global)) := by
  refine ⟨?_, ?_, ?_, ?_⟩
  · intro e he
    unfold get_web_global_scope
    rw [he]
  · intro v e hv hvb he
    unfold get_web_global_scope
    rw [hv]
    simp only [hvb, Option.getD_none, Bool.false_eq_true, if_false]
    rw [he]
  · intro v u hv hvb hu hub hnode
    unfold get_web_global_scope
    rw [hv]
    simp only [hvb, Option.getD_none, Bool.false_eq_true, if_false]
    rw [hu]
    simp [hub, hnode]
  · intro v hv hvb hu hwin
    unfold get_web_global_scope
    rw [hv]
    simp only [hvb, Option.getD_none, Bool.false_eq_true, if_false]
    rw [hu]
    simp [JsValue.as_bool, hwin]

/-- C10 witness: on a host whose worker probe throws, detection returns the
thrown error even though the window probe would evaluate to `true`. -/
theorem C10_witness :
    get_web_global_scope envEvalThrow = Except.error (JsValue.string "eval threw") := by
  exact (C10_probe_robustness_asymmetry envEvalThrow).1 (JsValue.string "eval threw")
    (by simp [envEvalThrow, baseEnv])

/-! ### C5 — independent named-function lookups in the script-host branch -/

/-- A NodeJs host (marker present, both probes `false`) where `clearInterval`
and `setInterval` resolve to functions but `setTimeout` is absent
(`Reflect::get` yields `undefined`). -/
def nodeEnvMissing : JsEnv :=
  { baseEnv with
    reflectGet := fun obj key =>
      match obj, key with
      | JsValue.object 0, PropKey.str "process" => Except.ok (JsValue.object 1)
      | JsValue.object 1, PropKey.str "versions" => Except.ok (JsValue.object 2)
      | JsValue.object 0, PropKey.str "clearInterval" => Except.ok (JsValue.function 1)
      | JsValue.object 0, PropKey.str "setInterval" => Except.ok (JsValue.function 2)
      | _, _ => Except.ok JsValue.undefined
    reflectHas := fun obj name =>
      if obj = JsValue.object 2 ∧ name = "node" then Except.ok true
      else Except.ok false }

/-- C5: in the script-host branch (both probes evaluated non-`true`, marker
present) the three global functions are looked up in order; a lookup whose
`Reflect::get` succeeds with a non-invocable value makes detection fail with
the error string naming exactly that function — `clearInterval`,
`setInterval` or `setTimeout` respectively. -/
theorem C5_script_host_lookup_errors (env : JsEnv) (v u : JsValue)
    (hw : env.eval workerProbeSrc = Except.ok v) (hwb : (v.as_bool).getD false = false)
    (hn : env.eval windowProbeSrc = Except.ok u) (hnb : (u.as_bool).getD false = false)
    (hmarker : is_node_js_env env = true) :
    (∀ x, env.reflectGet env.global (PropKey.str "clearInterval") = Except.ok x →
      x.is_function = false →
      get_web_global_scope env =
        Except.error (JsValue.string "failed to get js function `clearInterval`")) ∧
    (∀ f x, get_js_function_from_object env env.global "clearInterval" = Except.ok f →
      env.reflectGet env.global (PropKey.str "setInterval") = Except.ok x →
      x.is_function = false →
      get_web_global_scope env =
        Except.error (JsValue.string "failed to get js function `setInterval`")) ∧
    (∀ f g x, get_js_function_from_object env env.global "clearInterval" = Except.ok f →
      get_js_function_from_object env env.global "setInterval" = Except.ok g →
      env.reflectGet env.global (PropKey.str "setTimeout") = Except.ok x →
      x.is_function = false →
      get_web_global_scope env =
        Except.error (JsValue.string "failed to get js function `setTimeout`")) := by
  have hbase : get_web_global_scope env =
      (get_js_function_from_object env env.global "clearInterval").bind fun ci =>
        (get_js_function_from_object env env.global "setInterval").bind fun si =>
          (get_js_function_from_object env env.global "setTimeout").map fun st =>
            WebGlobalScope.NodeJs ci si st := by
    unfold get_web_global_scope
    rw [hw]
    simp only [hwb, Bool.false_eq_true, if_false]
    rw [hn]
    simp [hnb, hmarker]
  refine ⟨?_, ?_, ?_⟩
  · intro x hx hxf
    rw [hbase]
    unfold get_js_function_from_object
    rw [hx]
    simp [Except.bind, hxf]
  · intro f x hf hx hxf
    rw [hbase, hf]
    unfold get_js_function_from_object
    rw [hx]
    simp [Except.bind, hxf]
  · intro f g x hf hg hx hxf
    rw [hbase, hf, hg]
    unfold get_js_function_from_object
    rw [hx]
    simp [Except.bind, Except.map, hxf]

/-- C5 witness: on a NodeJs host with `setTimeout` absent, detection fails
with the error naming `setTimeout`. -/
theorem C5_witness :
    get_web_global_scope nodeEnvMissing =
      Except.error (JsValue.string "failed to get js function `setTimeout`") := by
  exact (C5_script_host_lookup_errors nodeEnvMissing (JsValue.boolean false)
      (JsValue.boolean false) rfl rfl rfl rfl rfl).2.2
    (JsValue.function 1) (JsValue.function 2) JsValue.undefined rfl rfl rfl rfl

/-! ### C2 / C6 — NodeJs Timeout identifier normalization -/

/-- A NodeJs host on the happy path: marker present, the three globals
resolve, scheduling calls return a Timeout object (`object 5`) whose
`Symbol.toPrimitive` member (`function 9`) yields the number `42`. -/
def nodeEnv : JsEnv :=
  { baseEnv with
    eval := fun _ => Except.ok JsValue.undefined
    reflectGet := fun obj key =>
      match obj, key with
      | JsValue.object 0, PropKey.str "process" => Except.ok (JsValue.object 1)
      | JsValue.object 1, PropKey.str "versions" => Except.ok (JsValue.object 2)
      | JsValue.object 0, PropKey.str "clearInterval" => Except.ok (JsValue.function 1)
      | JsValue.object 0, PropKey.str "setInterval" => Except.ok (JsValue.function 2)
      | JsValue.object 0, PropKey.str "setTimeout" => Except.ok (JsValue.function 3)
      | JsValue.object 5, PropKey.symbolToPrimitive => Except.ok (JsValue.function 9)
      | _, _ => Except.ok JsValue.undefined
    reflectHas := fun obj name =>
      if obj = JsValue.object 2 ∧ name = "node" then Except.ok true
      else Except.ok false
    callFunction := fun f _ _ =>
      match f with
      | JsValue.function 2 => Except.ok (JsValue.object 5)
      | JsValue.function 3 => Except.ok (JsValue.object 5)
      | JsValue.function 9 => Except.ok (JsValue.number 42)
      | _ => Except.ok JsValue.undefined }

/-- Like `nodeEnv`, but the Timeout object's `Symbol.toPrimitive` member is
`undefined` (not invocable), so identifier normalization fails. -/
def nodeEnvBadTimeout : JsEnv :=
  { nodeEnv with
    reflectGet := fun obj key =>
      match obj, key with
      | JsValue.object 0, PropKey.str "process" => Except.ok (JsValue.object 1)
      | JsValue.object 1, PropKey.str "versions" => Except.ok (JsValue.object 2)
      | JsValue.object 0, PropKey.str "clearInterval" => Except.ok (JsValue.function 1)
      | JsValue.object 0, PropKey.str "setInterval" => Except.ok (JsValue.function 2)
      | JsValue.object 0, PropKey.str "setTimeout" => Except.ok (JsValue.function 3)
      | _, _ => Except.ok JsValue.undefined }

/-- C2: on the NodeJs variant, `set_timeout` / `set_interval` call the
resolved global with the callback and delay; the returned Timeout object's
`Symbol.toPrimitive` member is retrieved and invoked with the Timeout object
as context, and the numeric result, cast to i32, is the returned identifier.
The trace shows exactly the scheduling call followed by the coercion call.
For any in-range result (such as `42`) the cast is the identity. -/
theorem C2_node_js_identifier_normalization (env : JsEnv)
    (ci si st callback timeout prim : JsValue) (delay x : Int)
    (hget : env.reflectGet timeout PropKey.symbolToPrimitive = Except.ok prim)
    (hfn : prim.is_function = true)
    (hcall : env.callFunction prim timeout [] = Except.ok (JsValue.number x)) :
    (env.callFunction st JsValue.undefined [callback, JsValue.number delay] =
        Except.ok timeout →
      WebGlobalScope.set_timeout env (WebGlobalScope.NodeJs ci si st) callback delay =
        (PanicOr.ok (Except.ok (f64_as_i32 x)),
          [HostCall.jsFunctionCall st JsValue.undefined [callback, JsValue.number delay],
            HostCall.jsFunctionCall prim timeout []])) ∧
    (env.callFunction si JsValue.undefined [callback, JsValue.number delay] =
        Except.ok timeout →
      WebGlobalScope.set_interval env (WebGlobalScope.NodeJs ci si st) callback delay =
        (PanicOr.ok (Except.ok (f64_as_i32 x)),
          [HostCall.jsFunctionCall si JsValue.undefined [callback, JsValue.number delay],
            HostCall.jsFunctionCall prim timeout []])) ∧
    (-(2 ^ 31) ≤ x ∧ x ≤ 2 ^ 31 - 1 → f64_as_i32 x = x) := by
  have hnorm : get_node_js_timeout_id env timeout =
      (PanicOr.ok (f64_as_i32 x), [HostCall.jsFunctionCall prim timeout []]) := by
    unfold get_node_js_timeout_id
    rw [hget]
    simp [Except.bind, hfn, hcall, JsValue.as_f64]
  refine ⟨?_, ?_, ?_⟩
  · intro hsched
    simp only [WebGlobalScope.set_timeout]
    rw [hsched]
    simp [hnorm]
  · intro hsched
    simp only [WebGlobalScope.set_interval]
    rw [hsched]
    simp [hnorm]
  · rintro ⟨h1, h2⟩
    unfold f64_as_i32
    rw [if_neg (by omega), if_neg (by omega)]

/-- C2 witness: on `nodeEnv`, a Timeout-like object whose numeric coercion
yields `42` makes `set_timeout` return identifier `42`. -/
theorem C2_witness :
    WebGlobalScope.set_timeout nodeEnv
      (WebGlobalScope.NodeJs (JsValue.function 1) (JsValue.function 2) (JsValue.function 3))
      (JsValue.function 7) 100 =
      (PanicOr.ok (Except.ok 42),
        [HostCall.jsFunctionCall (JsValue.function 3) JsValue.undefined
          [JsValue.function 7, JsValue.number 100],
          HostCall.jsFunctionCall (JsValue.function 9) (JsValue.object 5) []]) := by
  have h := (C2_node_js_identifier_normalization nodeEnv
      (JsValue.function 1) (JsValue.function 2) (JsValue.function 3)
      (JsValue.function 7) (JsValue.object 5) (JsValue.function 9) 100 42
      rfl rfl rfl).1 rfl
  simpa [f64_as_i32] using h

/-- C6: on the NodeJs variant, any failure of the Timeout-object coercion —
`Reflect::get` of `Symbol.toPrimitive` throwing, the member not being
invocable, the invocation throwing, or a non-numeric result — makes
`get_node_js_timeout_id` panic with the fixed message, never producing an
identifier; a scheduling call whose Timeout normalization panics makes
`set_timeout` / `set_interval` panic rather than return an identifier. -/
theorem C6_normalization_failure_is_fatal (env : JsEnv) (timeout : JsValue) :
    (∀ e, env.reflectGet timeout PropKey.symbolToPrimitive = Except.error e →
      (get_node_js_timeout_id env timeout).1 =
        PanicOr.panicked "failed to get timeout id from NodeJS timeout object") ∧
    (∀ v, env.reflectGet timeout PropKey.symbolToPrimitive = Except.ok v →
      v.is_function = false →
      (get_node_js_timeout_id env timeout).1 =
        PanicOr.panicked "failed to get timeout id from NodeJS timeout object") ∧
    (∀ v e, env.reflectGet timeout PropKey.symbolToPrimitive = Except.ok v →
      v.is_function = true → env.callFunction v timeout [] = Except.error e →
      (get_node_js_timeout_id env timeout).1 =
        PanicOr.panicked "failed to get timeout id from NodeJS timeout object") ∧
    (∀ v r, env.reflectGet timeout PropKey.symbolToPrimitive = Except.ok v →
      v.is_function = true → env.callFunction v timeout [] = Except.ok r →
      r.as_f64 = none →
      (get_node_js_timeout_id env timeout).1 =
        PanicOr.panicked "failed to get timeout id from NodeJS timeout object") ∧
    (∀ ci si st callback delay m,
      env.callFunction st JsValue.undefined [callback, JsValue.number delay] =
        Except.ok timeout →
      (get_node_js_timeout_id env timeout).1 = PanicOr.panicked m →
      (WebGlobalScope.set_timeout env (WebGlobalScope.NodeJs ci si st)
        callback delay).1 = PanicOr.panicked m) ∧
    (∀ ci si st callback delay m,
      env.callFunction si JsValue.undefined [callback, JsValue.number delay] =
        Except.ok timeout →
      (get_node_js_timeout_id env timeout).1 = PanicOr.panicked m →
      (WebGlobalScope.set_interval env (WebGlobalScope.NodeJs ci si st)
        callback delay).1 = PanicOr.panicked m) := by
  refine ⟨?_, ?_, ?_, ?_, ?_, ?_⟩
  · intro e he
    unfold get_node_js_timeout_id
    rw [he]
    rfl
  · intro v hv hvf
    unfold get_node_js_timeout_id
    rw [hv]
    simp [Except.bind, hvf]
  · intro v e hv hvf hc
    unfold get_node_js_timeout_id
    rw [hv]
    simp [Except.bind, hvf, hc]
  · intro v r hv hvf hc hr
    unfold get_node_js_timeout_id
    rw [hv]
    simp [Except.bind, hvf, hc, hr]
  · intro ci si st callback delay m hsched hpanic
    simp only [WebGlobalScope.set_timeout]
    rw [hsched]
    rcases hid : get_node_js_timeout_id env timeout with ⟨res, calls⟩
    rw [hid] at hpanic
    simp only at hpanic
    subst hpanic
    simp [hid]
  · intro ci si st callback delay m hsched hpanic
    simp only [WebGlobalScope.set_interval]
    rw [hsched]
    rcases hid : get_node_js_timeout_id env timeout with ⟨res, calls⟩
    rw [hid] at hpanic
    simp only at hpanic
    subst hpanic
    simp [hid]

/-- C6 witness: on `nodeEnvBadTimeout` (coercion member not invocable), the
normalization and the scheduling call both panic. -/
theorem C6_witness :
    (get_node_js_timeout_id nodeEnvBadTimeout (JsValue.object 5)).1 =
      PanicOr.panicked "failed to get timeout id from NodeJS timeout object" := by
  exact (C6_normalization_failure_is_fatal nodeEnvBadTimeout (JsValue.object 5)).2.1
    JsValue.undefined rfl rfl

/-! ### C7 — Window / WorkerGlobalScope native pass-through -/

/-- C7: on the `Window` and `WorkerGlobalScope` variants, `set_timeout` and
`set_interval` invoke the corresponding native scheduling operation with
exactly the callback and the delay (the trace shows a single native call
carrying only those two arguments) and return its `Result` unchanged;
`clear_interval` invokes the native clear-by-handle operation with the id
and returns nothing. -/
theorem C7_native_variant_pass_through (env : JsEnv) (callback : JsValue) (d id : Int) :
    (∀ w, WebGlobalScope.set_timeout env (WebGlobalScope.Window w) callback d =
      (PanicOr.ok (env.windowSetTimeout w callback d),
        [HostCall.windowSetTimeout w callback d])) ∧
    (∀ w, WebGlobalScope.set_interval env (WebGlobalScope.Window w) callback d =
      (PanicOr.ok (env.windowSetInterval w callback d),
        [HostCall.windowSetInterval w callback d])) ∧
    (∀ s, WebGlobalScope.set_timeout env (WebGlobalScope.WorkerGlobalScope s) callback d =
      (PanicOr.ok (env.workerSetTimeout s callback d),
        [HostCall.workerSetTimeout s callback d])) ∧
    (∀ s, WebGlobalScope.set_interval env (WebGlobalScope.WorkerGlobalScope s) callback d =
      (PanicOr.ok (env.workerSetInterval s callback d),
        [HostCall.workerSetInterval s callback d])) ∧
    (∀ w, WebGlobalScope.clear_interval env (WebGlobalScope.Window w) id =
      (PanicOr.ok (), [HostCall.windowClearInterval w id])) ∧
    (∀ s, WebGlobalScope.clear_interval env (WebGlobalScope.WorkerGlobalScope s) id =
      (PanicOr.ok (), [HostCall.workerClearInterval s id])) :=
  ⟨fun _ => rfl, fun _ => rfl, fun _ => rfl, fun _ => rfl, fun _ => rfl, fun _ => rfl⟩

/-! ### C9 — clear_interval error behaviour per variant -/

/-- A host whose function invocations all throw. -/
def envClearFail : JsEnv :=
  { baseEnv with callFunction := fun _ _ _ => Except.error (JsValue.string "boom") }

/-- C9: on the NodeJs variant, `clear_interval` panics (rather than
returning) when invoking the resolved `clearInterval` throws, and returns
unit when it succeeds; on the `Window` and `WorkerGlobalScope` variants it
always returns unit and has no error path at all. -/
theorem C9_clear_interval_error_behavior (env : JsEnv) (id : Int) :
    (∀ ci si st e,
      env.callFunction ci env.global [JsValue.number id] = Except.error e →
      WebGlobalScope.clear_interval env (WebGlobalScope.NodeJs ci si st) id =
        (PanicOr.panicked "failed to call global js function `clearInterval`",
          [HostCall.jsFunctionCall ci env.global [JsValue.number id]])) ∧
    (∀ ci si st r,
      env.callFunction ci env.global [JsValue.number id] = Except.ok r →
      WebGlobalScope.clear_interval env (WebGlobalScope.NodeJs ci si st) id =
        (PanicOr.ok (), [HostCall.jsFunctionCall ci env.global [JsValue.number id]])) ∧
    (∀ w, WebGlobalScope.clear_interval env (WebGlobalScope.Window w) id =
      (PanicOr.ok (), [HostCall.windowClearInterval w id])) ∧
    (∀ s, WebGlobalScope.clear_interval env (WebGlobalScope.WorkerGlobalScope s) id =
      (PanicOr.ok (), [HostCall.workerClearInterval s id])) := by
  refine ⟨?_, ?_, fun _ => rfl, fun _ => rfl⟩
  · intro ci si st e h
    simp only [WebGlobalScope.clear_interval]
    rw [h]
  · intro ci si st r h
    simp only [WebGlobalScope.clear_interval]
    rw [h]

/-- C9 witness: on a host whose `clearInterval` invocation throws, the NodeJs
`clear_interval` panics. -/
theorem C9_witness :
    WebGlobalScope.clear_interval envClearFail
      (WebGlobalScope.NodeJs (JsValue.function 1) (JsValue.function 2) (JsValue.function 3))
      6 =
      (PanicOr.panicked "failed to call global js function `clearInterval`",
        [HostCall.jsFunctionCall (JsValue.function 1) (JsValue.object 0)
          [JsValue.number 6]]) := by
  exact (C9_clear_interval_error_behavior envClearFail 6).1
    (JsValue.function 1) (JsValue.function 2) (JsValue.function 3)
    (JsValue.string "boom") rfl

/-! ### C3 — dispatch errors: surfaced by the scope methods, fatal at the facade -/

/-- A main-thread host whose native scheduling calls fail. -/
def envWindowFail : JsEnv :=
  { baseEnv with
    eval := fun s =>
      if s = windowProbeSrc then Except.ok (JsValue.boolean true)
      else Except.ok (JsValue.boolean false)
    isWindow := fun _ => true
    windowSetTimeout := fun _ _ _ => Except.error (JsValue.string "host refused")
    windowSetInterval := fun _ _ _ => Except.error (JsValue.string "host refused") }

/-- C3 (amended): a failure of the underlying native scheduling call is
returned as an `Err` result by the `WebGlobalScope` dispatch method to its
immediate caller, with exactly one scheduling invocation performed (no
retry); the facade free functions `set_timeout` / `set_interval` then treat
that error as fatal and panic (`expect`) instead of returning it. -/
theorem C3_dispatch_error_surfacing (env : JsEnv) (callback : JsValue) (d : Int) :
    (∀ w e, env.windowSetTimeout w callback d = Except.error e →
      WebGlobalScope.set_timeout env (WebGlobalScope.Window w) callback d =
        (PanicOr.ok (Except.error e), [HostCall.windowSetTimeout w callback d])) ∧
    (∀ w e, env.windowSetInterval w callback d = Except.error e →
      WebGlobalScope.set_interval env (WebGlobalScope.Window w) callback d =
        (PanicOr.ok (Except.error e), [HostCall.windowSetInterval w callback d])) ∧
    (∀ s e, env.workerSetTimeout s callback d = Except.error e →
      WebGlobalScope.set_timeout env (WebGlobalScope.WorkerGlobalScope s) callback d =
        (PanicOr.ok (Except.error e), [HostCall.workerSetTimeout s callback d])) ∧
    (∀ s e, env.workerSetInterval s callback d = Except.error e →
      WebGlobalScope.set_interval env (WebGlobalScope.WorkerGlobalScope s) callback d =
        (PanicOr.ok (Except.error e), [HostCall.workerSetInterval s callback d])) ∧
    (∀ ci si st e,
      env.callFunction st JsValue.undefined [callback, JsValue.number d] =
        Except.error e →
      WebGlobalScope.set_timeout env (WebGlobalScope.NodeJs ci si st) callback d =
        (PanicOr.ok (Except.error e),
          [HostCall.jsFunctionCall st JsValue.undefined [callback, JsValue.number d]])) ∧
    (∀ ci si st e,
      env.callFunction si JsValue.undefined [callback, JsValue.number d] =
        Except.error e →
      WebGlobalScope.set_interval env (WebGlobalScope.NodeJs ci si st) callback d =
        (PanicOr.ok (Except.error e),
          [HostCall.jsFunctionCall si JsValue.undefined [callback, JsValue.number d]])) ∧
    (∀ state scope state2 e calls,
      web_global_scope env state = PanicOr.ok (scope, state2) →
      WebGlobalScope.set_timeout env scope callback d =
        (PanicOr.ok (Except.error e), calls) →
      set_timeout env state callback d =
        (PanicOr.panicked "failed to call setTimeout in web environment", calls)) ∧
    (∀ state scope state2 e calls,
      web_global_scope env state = PanicOr.ok (scope, state2) →
      WebGlobalScope.set_interval env scope callback d =
        (PanicOr.ok (Except.error e), calls) →
      set_interval env state callback d =
        (PanicOr.panicked "failed to call setInterval in web environment", calls)) := by
  refine ⟨?_, ?_, ?_, ?_, ?_, ?_, ?_, ?_⟩
  · intro w e h
    simp only [WebGlobalScope.set_timeout]
    rw [h]
  · intro w e h
    simp only [WebGlobalScope.set_interval]
    rw [h]
  · intro s e h
    simp only [WebGlobalScope.set_timeout]
    rw [h]
  · intro s e h
    simp only [WebGlobalScope.set_interval]
    rw [h]
  · intro ci si st e h
    simp only [WebGlobalScope.set_timeout]
    rw [h]
  · intro ci si st e h
    simp only [WebGlobalScope.set_interval]
    rw [h]
  · intro state scope state2 e calls h1 h2
    simp [set_timeout, h1, h2]
  · intro state scope state2 e calls h1 h2
    simp [set_interval, h1, h2]

/-- C3 counterexample to the claim as stated: on a concrete main-thread host
whose native scheduling call fails, the facade free functions do not surface
an error result to their caller — they panic (process abort), with the
single native invocation visible in the trace. -/
theorem C3_counterexample :
    set_interval envWindowFail none (JsValue.function 4) 5 =
      (PanicOr.panicked "failed to call setInterval in web environment",
        [HostCall.windowSetInterval (JsValue.object 0) (JsValue.function 4) 5]) ∧
    set_timeout envWindowFail none (JsValue.function 4) 5 =
      (PanicOr.panicked "failed to call setTimeout in web environment",
        [HostCall.windowSetTimeout (JsValue.object 0) (JsValue.function 4) 5]) :=
  ⟨rfl, rfl⟩

/-- C3 witness: the amended theorem applied on the same host — the dispatch
method surfaces the native failure as an `Err` result with exactly one
scheduling invocation. -/
theorem C3_witness :
    WebGlobalScope.set_interval envWindowFail (WebGlobalScope.Window (JsValue.object 0))
      (JsValue.function 4) 5 =
      (PanicOr.ok (Except.error (JsValue.string "host refused")),
        [HostCall.windowSetInterval (JsValue.object 0) (JsValue.function 4) 5]) := by
  exact (C3_dispatch_error_surfacing envWindowFail (JsValue.function 4) 5).2.1
    (JsValue.object 0) (JsValue.string "host refused") rfl

/-! ### C4 — detection failure is fatal, never a returned error -/

/-- C4: when detection fails, the singleton accessor panics (`unwrap`) on
first use, and every facade function called in the uninitialized state
panics with that same unwrap message — no facade call returns a detection
error as an error value (the facade return types have no error channel at
all; the only non-value outcome is a panic). -/
theorem C4_detection_failure_is_fatal (env : JsEnv) (e : JsValue)
    (h : get_web_global_scope env = Except.error e) :
    web_global_scope env none =
      PanicOr.panicked "called `Result::unwrap()` on an `Err` value" ∧
    (∀ callback d, set_timeout env none callback d =
      (PanicOr.panicked "called `Result::unwrap()` on an `Err` value", [])) ∧
    (∀ callback d, set_interval env none callback d =
      (PanicOr.panicked "called `Result::unwrap()` on an `Err` value", [])) ∧
    (∀ id, clear_interval env none id =
      (PanicOr.panicked "called `Result::unwrap()` on an `Err` value", [])) := by
  have hw : web_global_scope env none =
      PanicOr.panicked "called `Result::unwrap()` on an `Err` value" := by
    unfold web_global_scope
    rw [h]
  refine ⟨hw, ?_, ?_, ?_⟩
  · intro callback d
    simp [set_timeout, hw]
  · intro callback d
    simp [set_interval, hw]
  · intro id
    simp [clear_interval, hw]

/-- C4 witness: on a host with no recognizable shape, first use of the
facade panics. -/
theorem C4_witness :
    set_timeout baseEnv none (JsValue.function 4) 1 =
      (PanicOr.panicked "called `Result::unwrap()` on an `Err` value", []) := by
  exact (C4_detection_failure_is_fatal baseEnv
      (JsValue.string "failed to get global scope in web environment") rfl).2.1
    (JsValue.function 4) 1

/-! ### C8 — idempotent first-use of the singleton -/

/-- Once the lock holds a scope, every further access returns exactly that
scope and leaves the state unchanged. -/
theorem singleton_calls_resolved (env : JsEnv) (scope : WebGlobalScope) :
    ∀ n, singleton_calls env n (some scope) =
      (List.replicate n (PanicOr.ok scope), some scope) := by
  intro n
  induction n with
  | zero => rfl
  | succ k ih => simp [singleton_calls, web_global_scope, ih, List.replicate]

/-- C8: when detection succeeds with `scope`, any number `n + 1` of
successive first-use calls (the linearization the `OnceLock` enforces on
concurrent callers) all observe the same resolved `scope`, and the lock ends
holding `scope`; moreover a later access in any environment whatsoever
returns the same stored `scope` unchanged — detection is never re-run and
the instance is never replaced. -/
theorem C8_concurrent_first_use (env : JsEnv) (scope : WebGlobalScope)
    (h : get_web_global_scope env = Except.ok scope) :
    (∀ n, singleton_calls env (n + 1) none =
      (List.replicate (n + 1) (PanicOr.ok scope), some scope)) ∧
    (∀ env2 : JsEnv, web_global_scope env2 (some scope) =
      PanicOr.ok (scope, some scope)) := by
  constructor
  · intro n
    have h1 : web_global_scope env none = PanicOr.ok (scope, some scope) := by
      unfold web_global_scope
      rw [h]
    simp [singleton_calls, h1, singleton_calls_resolved env scope n, List.replicate]
  · intro env2
    rfl

/-- C8 witness: three first-use callers on a worker host all observe the
same resolved scope. -/
theorem C8_witness :
    singleton_calls envWorkerTrue 3 none =
      ([PanicOr.ok (WebGlobalScope.WorkerGlobalScope (JsValue.object 0)),
        PanicOr.ok (WebGlobalScope.WorkerGlobalScope (JsValue.object 0)),
        PanicOr.ok (WebGlobalScope.WorkerGlobalScope (JsValue.object 0))],
        some (WebGlobalScope.WorkerGlobalScope (JsValue.object 0))) := by
  have h := (C8_concurrent_first_use envWorkerTrue
      (WebGlobalScope.WorkerGlobalScope (JsValue.object 0)) rfl).1 2
  simpa [List.replicate] using h
